import Mathlib

/-!
Shallow embedding of the client orchestration layer of
`src/src/App.js` (the `PackageOrderSystem` React component).

The component's state hooks become one record (`AppState`); each
async handler becomes a function from the pre-state and the outcome
of its single network call to the post-state.  JS `Set` objects are
embedded as insertion-ordered duplicate-free lists, because `Set`
iteration (hence `Array.from`) is specified to follow insertion
order.  Decimal currency amounts are embedded as exact rationals.
-/

namespace PackageOrderSystem

/-- Catalog item as delivered by `GET /products`:
`{ id, name, price, weight }` (lines 20-23 of App.js). -/
structure Item where
  id : Nat
  name : String
  price : ℚ
  weight : Nat
deriving DecidableEq

/-- The `selectedItems` JS `Set`: membership-unique, iterated in
insertion order; embedded as the insertion-ordered list of its
elements. -/
abbrev SelectionSet := List Nat

/-- Lines 34-44, `toggleItemSelection`: copy the previous set, then
`delete(itemId)` if present, else `add(itemId)`.  On the list
embedding a delete removes the element keeping the order of the rest,
and an add appends at the end (JS `Set.add` inserts at iteration
end). -/
def toggleItemSelection (prev : SelectionSet) (itemId : Nat) : SelectionSet :=
  if itemId ∈ prev then prev.erase itemId else prev ++ [itemId]

/-- Line 56, `Array.from(selectedItems)`: materialises the set as the
sequence of its elements in iteration (= insertion) order. -/
def snapshot (s : SelectionSet) : List Nat := s

/-- One shipment package of the calculate response:
`{ items, totalWeight, totalPrice, courierPrice }` (lines 101-121). -/
structure Package where
  items : List String
  totalWeight : ℚ
  totalPrice : ℚ
  courierPrice : ℚ
deriving DecidableEq

/-- The component's five `useState` hooks (lines 5-9). -/
structure AppState where
  items : List Item
  selectedItems : SelectionSet
  packages : Option (List Package)
  loading : Bool
  error : Option String
deriving DecidableEq

/-- Outcome of the one `GET /products` fetch of `fetchItems`: either a
parsed JSON body `{ success, data }`, or a transport/parse failure
(rejected fetch or `response.json()` throw). -/
inductive ProductsResponse where
  | json (success : Bool) (data : List Item)
  | transportError
deriving DecidableEq

/-- Lines 17-32, `fetchItems`: `setLoading(true)`; fetch and parse; if
`data.success` then `setItems(data.data)`; `setError(null)`
(unconditionally, outside the `if`); on a thrown error
`setError('Failed to load items')`; `finally setLoading(false)`.
The function maps the pre-state and the fetch outcome to the settled
post-state. -/
def fetchItems (s : AppState) : ProductsResponse → AppState
  | .json success data =>
      { s with
        items := if success then data else s.items
        error := none
        loading := false }
  | .transportError =>
      { s with
        error := some "Failed to load items"
        loading := false }

/-- Outcome of the one `POST /orders/calculate` fetch of
`handlePlaceOrder`: a parsed JSON body with its `success` flag, its
`data.packages` (consulted only when `success` is true) and its
optional `error` string, or a transport/parse failure. -/
inductive CalculateResponse where
  | json (success : Bool) (packages : List Package) (error : Option String)
  | transportError
deriving DecidableEq

/-- JS `a || b` on an optional string `a`: yields `b` when `a` is
absent (`undefined`/`null`) or falsy (the empty string), else the
string held by `a`.  Models `data.error || 'Failed to process order'`
at line 69. -/
def jsStringOr (v : Option String) (d : String) : String :=
  match v with
  | some str => if str = "" then d else str
  | none => d

/-- Lines 46-77, `handlePlaceOrder`: if the selection is empty, set
the validation error and return without any network call; otherwise
`setLoading(true)`, `setError(null)`, send
`{ itemIds: Array.from(selectedItems) }`, and on the response either
`setPackages(data.data.packages)` (success), or
`setError(data.error || 'Failed to process order')` (declared
failure), or `setError('Failed to process order')` (thrown
transport/parse error); `finally setLoading(false)`.  Returns the
settled post-state together with the `itemIds` request body actually
sent (`none` when no network call was issued). -/
def handlePlaceOrder (s : AppState) (r : CalculateResponse) :
    AppState × Option (List Nat) :=
  if s.selectedItems.length = 0 then
    ({ s with error := some "Please select at least one item" }, none)
  else
    let orderItems := snapshot s.selectedItems
    match r with
    | .json success pkgs err =>
        if success then
          ({ s with packages := some pkgs, error := none, loading := false },
           some orderItems)
        else
          ({ s with error := some (jsStringOr err "Failed to process order")
                    loading := false },
           some orderItems)
    | .transportError =>
        ({ s with error := some "Failed to process order", loading := false },
         some orderItems)

/-- The error the settled post-state of a non-empty submission holds,
as a function of the calculate outcome alone. -/
def orderOutcomeError : CalculateResponse → Option String
  | .json true _ _ => none
  | .json false _ e => some (jsStringOr e "Failed to process order")
  | .transportError => some "Failed to process order"

/-- Line 86, `packages.length`: the package count the result header
reports. -/
def packagesCount (pkgs : List Package) : Nat := pkgs.length

/-- Line 131, `packages.reduce((sum, pkg) => sum + Number(pkg.courierPrice), 0)`:
the total courier charge, a left fold from 0. -/
def totalCourierCharges (pkgs : List Package) : ℚ :=
  pkgs.foldl (fun sum pkg => sum + pkg.courierPrice) 0

/-- JS `Number.prototype.toFixed(2)` on a non-negative decimal value:
round to the nearest hundredth (ties up), then print with exactly two
digits after the point. -/
def toFixed2 (q : ℚ) : String :=
  let n := ⌊q * 100 + 1 / 2⌋
  let dollars := n / 100
  let cents := n % 100
  toString dollars ++ "." ++
    (if cents < 10 then "0" ++ toString cents else toString cents)

/-- Line 131 as displayed: `$` followed by the two-decimal rendering
of the total courier charge. -/
def renderTotalCourierCharges (pkgs : List Package) : String :=
  "$" ++ toFixed2 (totalCourierCharges pkgs)

/-- Heap of the JS `Set` objects allocated so far, addressed by
allocation index; models object identity so that aliasing and
in-place mutation are observable. -/
abbrev SetHeap := List SelectionSet

/-- Reading the set object a reference denotes. -/
def readSet (h : SetHeap) (r : Nat) : SelectionSet := h.getD r []

/-- Lines 35-42 at the object level: `const newSet = new Set(prev)`
allocates a fresh cell holding a copy of the referenced set, the
`delete`/`add` mutates that fresh cell only, and the reference to the
fresh cell is returned. -/
def toggleItemSelectionOp (h : SetHeap) (prevRef : Nat) (itemId : Nat) :
    SetHeap × Nat :=
  let prev := readSet h prevRef
  let h1 := h ++ [prev]
  let newRef := h.length
  let newVal := if itemId ∈ prev then prev.erase itemId else prev ++ [itemId]
  (h1.set newRef newVal, newRef)

theorem length_ne_zero_of_ne_nil {l : SelectionSet} (h : l ≠ []) :
    ¬l.length = 0 := by
  simpa [List.length_eq_zero] using h

theorem list_set_append_length {α : Type} (l : List α) (a b : α) :
    (l ++ [a]).set l.length b = l ++ [b] := by
  induction l with
  | nil => rfl
  | cons x xs ih => simp [ih]

/-- C7: for every SelectionSet and item identifier, toggling twice in
succession returns the set to exactly its prior membership, and a
single toggle removes the identifier if present and adds it if
absent; toggle is total, so identifiers outside the catalog are
handled like any other. -/
theorem claim_C7_toggle_involution (l : SelectionSet) (x : Nat) (hnd : l.Nodup) :
    (∀ y, y ∈ toggleItemSelection (toggleItemSelection l x) x ↔ y ∈ l) ∧
    (x ∈ l → x ∉ toggleItemSelection l x) ∧
    (x ∉ l → x ∈ toggleItemSelection l x) := by
  by_cases hx : x ∈ l
  · have h1 : toggleItemSelection l x = l.erase x := by
      simp [toggleItemSelection, hx]
    have h2 : x ∉ l.erase x := hnd.not_mem_erase
    refine ⟨?_, fun _ => h1 ▸ h2, fun hc => absurd hx hc⟩
    intro y
    have h3 : toggleItemSelection (l.erase x) x = l.erase x ++ [x] := by
      simp [toggleItemSelection, h2]
    rw [h1, h3, List.mem_append, hnd.mem_erase_iff]
    constructor
    · rintro (⟨_, hy⟩ | hy)
      · exact hy
      · simp only [List.mem_singleton] at hy
        exact hy ▸ hx
    · intro hy
      by_cases hyx : y = x
      · right
        simp [hyx]
      · left
        exact ⟨hyx, hy⟩
  · have h1 : toggleItemSelection l x = l ++ [x] := by
      simp [toggleItemSelection, hx]
    have h2 : x ∈ l ++ [x] := by simp
    refine ⟨?_, fun hc => absurd hc hx, fun _ => h1 ▸ h2⟩
    intro y
    have h3 : toggleItemSelection (l ++ [x]) x = l := by
      simp only [toggleItemSelection, if_pos h2]
      rw [List.erase_append_right _ hx, List.erase_cons_head, List.append_nil]
    rw [h1, h3]

/-- C7 witness: the concrete set {1, 2} with identifier 2 toggled
twice. -/
theorem claim_C7_toggle_involution_witness :
    ([1, 2] : SelectionSet).Nodup ∧
    ((∀ y, y ∈ toggleItemSelection (toggleItemSelection [1, 2] 2) 2 ↔ y ∈ [1, 2]) ∧
     (2 ∈ [1, 2] → 2 ∉ toggleItemSelection [1, 2] 2) ∧
     (2 ∉ [1, 2] → 2 ∈ toggleItemSelection [1, 2] 2)) :=
  ⟨by decide, claim_C7_toggle_involution [1, 2] 2 (by decide)⟩

/-- C1 counterexample: toggling ids 3, 1, 2 in that order yields the
snapshot [3, 1, 2] (JS Set insertion order), not the ascending
sequence [1, 2, 3] the claim states. -/
theorem claim_C1_counterexample :
    snapshot (toggleItemSelection (toggleItemSelection (toggleItemSelection [] 3) 1) 2)
        ≠ [1, 2, 3] ∧
    snapshot (toggleItemSelection (toggleItemSelection (toggleItemSelection [] 3) 1) 2)
        = [3, 1, 2] := by decide

/-- C1 (amended): snapshot returns the contained item identifiers in
insertion order, the order in which they were first toggled in; after
toggling ids {3, 1, 2} in that order, snapshot yields [3, 1, 2]; and
submitting a non-empty selection sends the request body itemIds with
the identifiers in exactly that insertion order. -/
theorem claim_C1_snapshot_insertion_order :
    snapshot (toggleItemSelection (toggleItemSelection (toggleItemSelection [] 3) 1) 2)
        = [3, 1, 2] ∧
    ∀ (s : AppState) (r : CalculateResponse), s.selectedItems ≠ [] →
      (handlePlaceOrder s r).2 = some (snapshot s.selectedItems) := by
  refine ⟨by decide, ?_⟩
  intro s r hne
  have h0 := length_ne_zero_of_ne_nil hne
  cases r with
  | json success pkgs err => cases success <;> simp [handlePlaceOrder, h0, snapshot]
  | transportError => simp [handlePlaceOrder, h0, snapshot]

/-- C1 witness: a state holding the single selected id 3 submits the
body itemIds = [3]. -/
theorem claim_C1_snapshot_insertion_order_witness :
    (({ items := [], selectedItems := [3], packages := none, loading := false,
        error := none } : AppState).selectedItems ≠ []) ∧
    (handlePlaceOrder
        { items := [], selectedItems := [3], packages := none, loading := false,
          error := none } .transportError).2 = some (snapshot [3]) :=
  ⟨by decide,
   claim_C1_snapshot_insertion_order.2
     { items := [], selectedItems := [3], packages := none, loading := false,
       error := none } .transportError (by decide)⟩

/-- C9: the selection is never cleared automatically: a submit
invocation, whatever its outcome (validation failure, success,
declared failure or transport error), and likewise a catalog load,
leave the selection membership exactly as it was. -/
theorem claim_C9_selection_never_cleared (s : AppState) (r : CalculateResponse)
    (pr : ProductsResponse) :
    (handlePlaceOrder s r).1.selectedItems = s.selectedItems ∧
    (fetchItems s pr).selectedItems = s.selectedItems := by
  constructor
  · by_cases h0 : s.selectedItems.length = 0
    · simp [handlePlaceOrder, h0]
    · cases r with
      | json success pkgs err => cases success <;> simp [handlePlaceOrder, h0]
      | transportError => simp [handlePlaceOrder, h0]
  · cases pr <;> simp [fetchItems]

/-- C10: toggle is copy-on-write: the operation allocates a new set
object and mutates only it, so the set object referenced before the
toggle still holds its original value afterwards, while the returned
reference holds the toggled value. -/
theorem claim_C10_toggle_copy_on_write (h : SetHeap) (prevRef itemId : Nat)
    (hlt : prevRef < h.length) :
    readSet (toggleItemSelectionOp h prevRef itemId).1 prevRef = readSet h prevRef ∧
    readSet (toggleItemSelectionOp h prevRef itemId).1
        (toggleItemSelectionOp h prevRef itemId).2
      = toggleItemSelection (readSet h prevRef) itemId := by
  have hset : (toggleItemSelectionOp h prevRef itemId).1
      = h ++ [toggleItemSelection (readSet h prevRef) itemId] := by
    simp [toggleItemSelectionOp, toggleItemSelection, list_set_append_length]
  have href : (toggleItemSelectionOp h prevRef itemId).2 = h.length := rfl
  constructor
  · rw [hset]
    simp only [readSet]
    exact List.getD_append _ _ _ _ hlt
  · rw [hset, href]
    simp only [readSet]
    rw [List.getD_append_right _ _ _ _ le_rfl]
    simp

/-- C10 witness: the heap holding the one set {1, 2}, toggling id 1
through reference 0. -/
theorem claim_C10_toggle_copy_on_write_witness :
    (0 < ([[1, 2]] : SetHeap).length) ∧
    (readSet (toggleItemSelectionOp [[1, 2]] 0 1).1 0 = readSet [[1, 2]] 0 ∧
     readSet (toggleItemSelectionOp [[1, 2]] 0 1).1 (toggleItemSelectionOp [[1, 2]] 0 1).2
       = toggleItemSelection (readSet [[1, 2]] 0) 1) :=
  ⟨by decide, claim_C10_toggle_copy_on_write [[1, 2]] 0 1 (by decide)⟩

/-- C2 counterexample: a catalog load whose response parses with
success false sets no "failed to load items" message at all; the
error slot ends up empty (the code runs setError(null) even on that
branch). -/
theorem claim_C2_counterexample :
    (fetchItems
        { items := [], selectedItems := [], packages := none, loading := false,
          error := none } (.json false [])).error ≠ some "Failed to load items" ∧
    (fetchItems
        { items := [], selectedItems := [], packages := none, loading := false,
          error := none } (.json false [])).error = none := by decide

/-- C2 (amended): on transport failure the client sets the generic
"Failed to load items" message and preserves the held item list; on a
parsed response with success false it also preserves the item list
but sets no error message (it even clears any prior one); the held
item list is replaced only on a successful response. -/
theorem claim_C2_load_failure_behaviour (s : AppState) (data : List Item) :
    ((fetchItems s .transportError).items = s.items ∧
     (fetchItems s .transportError).error = some "Failed to load items") ∧
    ((fetchItems s (.json false data)).items = s.items ∧
     (fetchItems s (.json false data)).error = none) ∧
    (fetchItems s (.json true data)).items = data := by
  refine ⟨⟨?_, ?_⟩, ⟨?_, ?_⟩, ?_⟩ <;> simp [fetchItems]

/-- C3 counterexample: a state holding the order-submission error
message has that error wiped to none by a completed successful
catalog load, so the two operations' errors are not independent. -/
theorem claim_C3_counterexample :
    (fetchItems
        { items := [], selectedItems := [], packages := none, loading := false,
          error := some "Failed to process order" } (.json true [])).error = none ∧
    some "Failed to process order" ≠ (none : Option String) := by decide

/-- C3 (amended): the client holds one shared error slot and one
shared loading flag for both operations: a completed catalog load
overwrites the error slot regardless of the prior error's origin
(to none on any parsed response, to the generic message on transport
failure), a non-empty order submission likewise ends with the error
slot a function of the calculate outcome alone, and both operations
drive the same loading flag. -/
theorem claim_C3_shared_error_and_loading (s : AppState) (data : List Item)
    (r : CalculateResponse) (h : s.selectedItems ≠ []) :
    (fetchItems s (.json true data)).error = none ∧
    (fetchItems s (.json false data)).error = none ∧
    (fetchItems s .transportError).error = some "Failed to load items" ∧
    (handlePlaceOrder s r).1.error = orderOutcomeError r ∧
    (fetchItems s (.json true data)).loading = false ∧
    (handlePlaceOrder s r).1.loading = false := by
  have h0 := length_ne_zero_of_ne_nil h
  refine ⟨by simp [fetchItems], by simp [fetchItems], by simp [fetchItems], ?_, ?_, ?_⟩
  · cases r with
    | json success pkgs err =>
        cases success <;> simp [handlePlaceOrder, h0, orderOutcomeError]
    | transportError => simp [handlePlaceOrder, h0, orderOutcomeError]
  · simp [fetchItems]
  · cases r with
    | json success pkgs err => cases success <;> simp [handlePlaceOrder, h0]
    | transportError => simp [handlePlaceOrder, h0]

/-- C3 witness: the shared slots at the concrete state selecting id 1
with a successful calculate response carrying no packages. -/
theorem claim_C3_shared_error_and_loading_witness :
    (({ items := [], selectedItems := [1], packages := none, loading := false,
        error := none } : AppState).selectedItems ≠ []) ∧
    ((fetchItems
        { items := [], selectedItems := [1], packages := none, loading := false,
          error := none } (.json true [])).error = none ∧
     (fetchItems
        { items := [], selectedItems := [1], packages := none, loading := false,
          error := none } (.json false [])).error = none ∧
     (fetchItems
        { items := [], selectedItems := [1], packages := none, loading := false,
          error := none } .transportError).error = some "Failed to load items" ∧
     (handlePlaceOrder
        { items := [], selectedItems := [1], packages := none, loading := false,
          error := none } (.json true [] none)).1.error
       = orderOutcomeError (.json true [] none) ∧
     (fetchItems
        { items := [], selectedItems := [1], packages := none, loading := false,
          error := none } (.json true [])).loading = false ∧
     (handlePlaceOrder
        { items := [], selectedItems := [1], packages := none, loading := false,
          error := none } (.json true [] none)).1.loading = false) :=
  ⟨by decide,
   claim_C3_shared_error_and_loading
     { items := [], selectedItems := [1], packages := none, loading := false,
       error := none } [] (.json true [] none) (by decide)⟩

/-- C4 counterexample: a calculate response with success false and the
error text "no courier available" leaves the previously held
OrderResult in place: the packages slot still holds the prior package
list, which the component keeps rendering, so the Failed outcome does
not replace the result state. -/
theorem claim_C4_counterexample :
    (handlePlaceOrder
        { items := [], selectedItems := [1],
          packages := some [⟨["A"], 100, 10, 5⟩], loading := false, error := none }
        (.json false [] (some "no courier available"))).1.packages
      = some [⟨["A"], 100, 10, 5⟩] ∧
    (some [(⟨["A"], 100, 10, 5⟩ : Package)] ≠ (none : Option (List Package))) := by
  decide

/-- C4 (amended): a calculate response with success false, and
likewise a transport failure, sets the error but preserves whatever
OrderResult was held; the packages slot is overwritten only by a
successful response. -/
theorem claim_C4_failed_preserves_result (s : AppState) (pkgs : List Package)
    (e : Option String) (h : s.selectedItems ≠ []) :
    (handlePlaceOrder s (.json false pkgs e)).1.packages = s.packages ∧
    (handlePlaceOrder s .transportError).1.packages = s.packages ∧
    (handlePlaceOrder s (.json true pkgs e)).1.packages = some pkgs := by
  have h0 := length_ne_zero_of_ne_nil h
  refine ⟨?_, ?_, ?_⟩ <;> simp [handlePlaceOrder, h0]

/-- C4 witness: the amended behaviour at a state already holding one
package. -/
theorem claim_C4_failed_preserves_result_witness :
    (({ items := [], selectedItems := [1],
        packages := some [⟨["A"], 100, 10, 5⟩], loading := false,
        error := none } : AppState).selectedItems ≠ []) ∧
    ((handlePlaceOrder
        { items := [], selectedItems := [1],
          packages := some [⟨["A"], 100, 10, 5⟩], loading := false, error := none }
        (.json false [] (some "no courier available"))).1.packages
       = some [⟨["A"], 100, 10, 5⟩] ∧
     (handlePlaceOrder
        { items := [], selectedItems := [1],
          packages := some [⟨["A"], 100, 10, 5⟩], loading := false, error := none }
        .transportError).1.packages = some [⟨["A"], 100, 10, 5⟩] ∧
     (handlePlaceOrder
        { items := [], selectedItems := [1],
          packages := some [⟨["A"], 100, 10, 5⟩], loading := false, error := none }
        (.json true [] (some "no courier available"))).1.packages = some []) :=
  ⟨by decide,
   claim_C4_failed_preserves_result
     { items := [], selectedItems := [1],
       packages := some [⟨["A"], 100, 10, 5⟩], loading := false, error := none }
     [] (some "no courier available") (by decide)⟩

/-- C5: a submit on an empty selection fails immediately and
synchronously: the error slot gets the validation message, no network
call is issued, the loading flag is not touched, and all the state
apart from the error slot is left exactly as it was. -/
theorem claim_C5_empty_selection_validation (s : AppState) (r : CalculateResponse)
    (h : s.selectedItems = []) :
    (handlePlaceOrder s r).2 = none ∧
    (handlePlaceOrder s r).1.error = some "Please select at least one item" ∧
    (handlePlaceOrder s r).1.loading = s.loading ∧
    (handlePlaceOrder s r).1
      = { s with error := some "Please select at least one item" } := by
  have h0 : s.selectedItems.length = 0 := by simp [h]
  refine ⟨?_, ?_, ?_, ?_⟩ <;> simp [handlePlaceOrder, h0]

/-- C5 witness: the empty-selection state submitted against an
arbitrary response outcome. -/
theorem claim_C5_empty_selection_validation_witness :
    (({ items := [], selectedItems := [], packages := none, loading := false,
        error := none } : AppState).selectedItems = []) ∧
    ((handlePlaceOrder
        { items := [], selectedItems := [], packages := none, loading := false,
          error := none } .transportError).2 = none ∧
     (handlePlaceOrder
        { items := [], selectedItems := [], packages := none, loading := false,
          error := none } .transportError).1.error
       = some "Please select at least one item" ∧
     (handlePlaceOrder
        { items := [], selectedItems := [], packages := none, loading := false,
          error := none } .transportError).1.loading = false ∧
     (handlePlaceOrder
        { items := [], selectedItems := [], packages := none, loading := false,
          error := none } .transportError).1
       = { items := [], selectedItems := [], packages := none, loading := false,
           error := some "Please select at least one item" }) :=
  ⟨by decide,
   claim_C5_empty_selection_validation
     { items := [], selectedItems := [], packages := none, loading := false,
       error := none } .transportError (by decide)⟩

/-- C8 counterexample: a response with success false whose error field
holds the empty string is "present", yet the default message is used
instead of the supplied text, because the code's fallback reads
data.error with the JS or-else operator, which treats the empty
string as absent. -/
theorem claim_C8_counterexample :
    (handlePlaceOrder
        { items := [], selectedItems := [1], packages := none, loading := false,
          error := none } (.json false [] (some ""))).1.error
      = some "Failed to process order" ∧
    ("Failed to process order" : String) ≠ "" := by decide

/-- C8 (amended): a calculate response with success false moves the
submission to the error message supplied by the server when one is
present and non-empty, and to the default "Failed to process order"
when the server supplies none or supplies the empty string. -/
theorem claim_C8_failed_error_message (s : AppState) (pkgs : List Package)
    (msg : String) (h : s.selectedItems ≠ []) (hmsg : msg ≠ "") :
    (handlePlaceOrder s (.json false pkgs (some msg))).1.error = some msg ∧
    (handlePlaceOrder s (.json false pkgs none)).1.error
      = some "Failed to process order" ∧
    (handlePlaceOrder s (.json false pkgs (some ""))).1.error
      = some "Failed to process order" := by
  have h0 := length_ne_zero_of_ne_nil h
  refine ⟨?_, ?_, ?_⟩ <;> simp [handlePlaceOrder, h0, jsStringOr, hmsg]

/-- C8 witness: the server text "no courier available" carried
through, and both absent and empty server texts falling back to the
default. -/
theorem claim_C8_failed_error_message_witness :
    (({ items := [], selectedItems := [1], packages := none, loading := false,
        error := none } : AppState).selectedItems ≠ []) ∧
    ("no courier available" : String) ≠ "" ∧
    ((handlePlaceOrder
        { items := [], selectedItems := [1], packages := none, loading := false,
          error := none } (.json false [] (some "no courier available"))).1.error
       = some "no courier available" ∧
     (handlePlaceOrder
        { items := [], selectedItems := [1], packages := none, loading := false,
          error := none } (.json false [] none)).1.error
       = some "Failed to process order" ∧
     (handlePlaceOrder
        { items := [], selectedItems := [1], packages := none, loading := false,
          error := none } (.json false [] (some ""))).1.error
       = some "Failed to process order") :=
  ⟨by decide, by decide,
   claim_C8_failed_error_message
     { items := [], selectedItems := [1], packages := none, loading := false,
       error := none } [] "no courier available" (by decide) (by decide)⟩

theorem totalCourierCharges_eq_sum (pkgs : List Package) :
    totalCourierCharges pkgs = (pkgs.map Package.courierPrice).sum := by
  rw [totalCourierCharges, List.sum_eq_foldl, List.foldl_map]

/-- C6: for a successful OrderResult the aggregate reports the package
count and a total courier charge equal to the sum of every package's
courierPrice, independent of the ordering of the packages; on the
concrete result with courier prices 5.00 and 7.50 it reports 2
packages and renders the total as "$12.50", with exactly two decimal
places. -/
theorem claim_C6_aggregate_total (pkgs pkgs2 : List Package) (hp : pkgs.Perm pkgs2) :
    packagesCount pkgs = pkgs.length ∧
    totalCourierCharges pkgs = (pkgs.map Package.courierPrice).sum ∧
    totalCourierCharges pkgs = totalCourierCharges pkgs2 ∧
    packagesCount [⟨["A"], 100, 10, 5⟩, ⟨["B"], 200, 20, 15 / 2⟩] = 2 ∧
    renderTotalCourierCharges [⟨["A"], 100, 10, 5⟩, ⟨["B"], 200, 20, 15 / 2⟩]
      = "$12.50" := by
  refine ⟨rfl, totalCourierCharges_eq_sum pkgs, ?_, rfl, ?_⟩
  · rw [totalCourierCharges_eq_sum, totalCourierCharges_eq_sum]
    exact (hp.map Package.courierPrice).sum_eq
  · have h1 : totalCourierCharges [⟨["A"], 100, 10, 5⟩, ⟨["B"], 200, 20, 15 / 2⟩]
        = 25 / 2 := by norm_num [totalCourierCharges]
    have h2 : ⌊(25 / 2 : ℚ) * 100 + 1 / 2⌋ = 1250 := by norm_num
    simp only [renderTotalCourierCharges, toFixed2, h1, h2]
    decide

/-- C6 witness: the two-package result in both orders. -/
theorem claim_C6_aggregate_total_witness :
    (([⟨["A"], 100, 10, 5⟩, ⟨["B"], 200, 20, 15 / 2⟩] : List Package).Perm
        [⟨["B"], 200, 20, 15 / 2⟩, ⟨["A"], 100, 10, 5⟩]) ∧
    (packagesCount [⟨["A"], 100, 10, 5⟩, ⟨["B"], 200, 20, 15 / 2⟩]
        = ([⟨["A"], 100, 10, 5⟩, ⟨["B"], 200, 20, 15 / 2⟩] : List Package).length ∧
     totalCourierCharges [⟨["A"], 100, 10, 5⟩, ⟨["B"], 200, 20, 15 / 2⟩]
        = (([⟨["A"], 100, 10, 5⟩, ⟨["B"], 200, 20, 15 / 2⟩] : List Package).map
            Package.courierPrice).sum ∧
     totalCourierCharges [⟨["A"], 100, 10, 5⟩, ⟨["B"], 200, 20, 15 / 2⟩]
        = totalCourierCharges [⟨["B"], 200, 20, 15 / 2⟩, ⟨["A"], 100, 10, 5⟩] ∧
     packagesCount [⟨["A"], 100, 10, 5⟩, ⟨["B"], 200, 20, 15 / 2⟩] = 2 ∧
     renderTotalCourierCharges [⟨["A"], 100, 10, 5⟩, ⟨["B"], 200, 20, 15 / 2⟩]
       = "$12.50") :=
  ⟨List.Perm.swap _ _ _,
   claim_C6_aggregate_total _ _ (List.Perm.swap _ _ _)⟩

end PackageOrderSystem
